import Mathlib

/-!
Shallow embedding of the bonding-curve program
(src/programs/bonding-curve/src/lib.rs).

Machine integers are modelled as `Nat` with explicit wrap-around where the
source performs unchecked `u128` arithmetic: `wsub128 a b` is the value of the
release-mode Rust expression `a - b` on `u128` operands (two's-complement wrap
modulo 2^128).  Rust's `u128::saturating_sub` coincides with truncated `Nat`
subtraction.  The `try_into::<u64>()` narrowing succeeds exactly when the value
is below 2^64.  Fallible Rust functions returning `Result<u64>` become
`Except ErrorCode Nat`.
-/

namespace BondingCurve

/-- Value of the SWARMS_TOKEN_ADDRESS constant (lib.rs line 8). -/
def SWARMS_TOKEN_ADDRESS : String := "74SBV4zDXxTRgv1pEMoECskKBkZHc2yGPnc7GYVepump"

/-- Value of the WITHDRAW_AUTHORITY constant (lib.rs line 9). -/
def WITHDRAW_AUTHORITY : String := "CihEpQp6CSP9wGfwijvPivshSV6VbgvNef1JMMPQ4R9G"

/-- Value of INITIAL_VIRTUAL_SWARMS, 500 SWARMS with 6 decimals (lib.rs line 12). -/
def INITIAL_VIRTUAL_SWARMS : Nat := 500000000

/-- Value of INITIAL_TOKEN_SUPPLY, 1,073,000,191 tokens with 6 decimals (lib.rs line 13). -/
def INITIAL_TOKEN_SUPPLY : Nat := 1073000191000000

/-- Value of K_VALUE, the constant product k = initial_supply * initial_virtual_swarms
(lib.rs line 14). -/
def K_VALUE : Nat := 536500095500000000000000

/-- Modulus of the 128-bit unsigned integer type: 2^128. -/
def U128_MOD : Nat := 340282366920938463463374607431768211456

/-- Size of the 64-bit unsigned integer type: 2^64.  A `u128` value narrows to
`u64` via `try_into` exactly when it is below this bound. -/
def U64_SIZE : Nat := 18446744073709551616

/-- Wrapping (release-mode) subtraction on `u128` operands: the residue of
a - b modulo 2^128.  For `b ≤ a < 2^128` this equals the true difference. -/
def wsub128 (a b : Nat) : Nat := (U128_MOD + a - b) % U128_MOD

/-- The five ErrorCode variants of the program (lib.rs lines 213-225). -/
inductive ErrorCode
  | SlippageExceeded
  | InvalidSwarmsMint
  | InvalidWithdrawAuthority
  | InvalidInputToken
  | BondingCurveError
deriving DecidableEq, Repr

deriving instance DecidableEq for Except

/-- Embedding of `calculate_tokens_out` (lib.rs lines 230-241): tokens obtained
for `swarms_in` base asset.  The `u64 → u128` widening and the addition of
INITIAL_VIRTUAL_SWARMS cannot wrap (u64 value plus 500000000 is far below
2^128), so they are plain `Nat` operations; the `u128` subtraction
`INITIAL_TOKEN_SUPPLY - K_VALUE / d` is the unchecked wrapping subtraction
`wsub128`; the final `try_into` narrowing to u64 fails with
BondingCurveError when the value does not fit. -/
def calculate_tokens_out (swarms_in : Nat) : Except ErrorCode Nat :=
  let swarms_in_u128 := swarms_in + INITIAL_VIRTUAL_SWARMS
  let tokens_out := wsub128 INITIAL_TOKEN_SUPPLY (K_VALUE / swarms_in_u128)
  if tokens_out < U64_SIZE then Except.ok tokens_out
  else Except.error ErrorCode.BondingCurveError

/-- Embedding of `calculate_swarms_out` (lib.rs lines 246-261): base asset
obtained for `tokens_in` minted tokens.  `tokens_remaining` is the unchecked
wrapping `u128` subtraction; the explicit zero guard returns
BondingCurveError; `saturating_sub` on unsigned operands is truncated `Nat`
subtraction; the final `try_into` narrowing to u64 fails with
BondingCurveError when the value does not fit. -/
def calculate_swarms_out (tokens_in : Nat) : Except ErrorCode Nat :=
  let tokens_remaining := wsub128 INITIAL_TOKEN_SUPPLY tokens_in
  if tokens_remaining = 0 then Except.error ErrorCode.BondingCurveError
  else
    let swarms_total := K_VALUE / tokens_remaining
    let swarms_out := swarms_total - INITIAL_VIRTUAL_SWARMS
    if swarms_out < U64_SIZE then Except.ok swarms_out
    else Except.error ErrorCode.BondingCurveError

/-- The persistent TokenVault account (lib.rs lines 202-207).  Pubkeys are
modelled as `Nat`. -/
structure TokenVault where
  minted_mint : Nat
  swarms_mint : Nat
  authority : Nat
deriving DecidableEq, Repr

/-- A token transfer instruction issued through the SPL token program:
source account, destination account, amount.  An operation that aborts with
an error issues no transfers (the runtime rolls the transaction back). -/
structure Transfer where
  source : Nat
  dest : Nat
  amount : Nat
deriving DecidableEq, Repr

/-- The accounts of the Swap context (lib.rs lines 145-173).  Mint and token
accounts are identified by `Nat`; `swarmsMintStr` is the base-58 string form
of the swarms mint key, compared against SWARMS_TOKEN_ADDRESS. -/
structure SwapAccounts where
  vault : TokenVault
  swarmsMintStr : String
  swarmsMint : Nat
  mintedMint : Nat
  tokenInMint : Nat
  userTokenIn : Nat
  userTokenOut : Nat
  vaultTokenIn : Nat
  vaultTokenOut : Nat

/-- Embedding of the `swap` entry point (lib.rs lines 20-88).  Checks the
swarms mint address, checks the input mint is one of the two pool mints,
prices the trade on the branch selected by the input mint, enforces the
minimum-output slippage bound, then issues the two transfers.  The successful
result is the ordered list of transfers; any error aborts with no transfers. -/
def swap (acc : SwapAccounts) (amount_in min_amount_out : Nat) :
    Except ErrorCode (List Transfer) :=
  if acc.swarmsMintStr ≠ SWARMS_TOKEN_ADDRESS then
    Except.error ErrorCode.InvalidSwarmsMint
  else if ¬ (acc.tokenInMint = acc.swarmsMint ∨ acc.tokenInMint = acc.mintedMint) then
    Except.error ErrorCode.InvalidInputToken
  else
    match (if acc.tokenInMint = acc.swarmsMint
           then calculate_tokens_out amount_in
           else calculate_swarms_out amount_in) with
    | Except.error e => Except.error e
    | Except.ok output_amount =>
      if output_amount < min_amount_out then
        Except.error ErrorCode.SlippageExceeded
      else
        Except.ok [⟨acc.userTokenIn, acc.vaultTokenIn, amount_in⟩,
                   ⟨acc.vaultTokenOut, acc.userTokenOut, output_amount⟩]

/-- Embedding of the `withdraw_liquidity` entry point (lib.rs lines 90-142).
`authorityStr` is the base-58 string form of the signing authority's key,
compared against the hardcoded WITHDRAW_AUTHORITY constant; the vault record
is passed but its stored `authority` field is never read, exactly as in the
source.  Each transfer is issued only when its amount is positive. -/
def withdraw_liquidity (authorityStr : String) (vault : TokenVault)
    (vaultSwarms authoritySwarms vaultMinted authorityMinted : Nat)
    (swarms_amount minted_amount : Nat) : Except ErrorCode (List Transfer) :=
  if authorityStr ≠ WITHDRAW_AUTHORITY then
    Except.error ErrorCode.InvalidWithdrawAuthority
  else
    Except.ok
      ((if swarms_amount > 0 then [⟨vaultSwarms, authoritySwarms, swarms_amount⟩] else [])
        ++ (if minted_amount > 0 then [⟨vaultMinted, authorityMinted, minted_amount⟩] else []))

end BondingCurve

namespace BondingCurve

/-! Helper lemmas about the embedded arithmetic. -/

/-- Wrapping u128 subtraction coincides with truncated subtraction when no
underflow occurs. -/
lemma wsub128_of_le {a b : Nat} (hba : b ≤ a) (ha : a < U128_MOD) :
    wsub128 a b = a - b := by
  have hm : U128_MOD = 340282366920938463463374607431768211456 := rfl
  show (U128_MOD + a - b) % U128_MOD = a - b
  rw [hm] at ha ⊢
  omega

/-- The 128-bit quotient K_VALUE / (x + INITIAL_VIRTUAL_SWARMS) never exceeds
INITIAL_TOKEN_SUPPLY, because the denominator is at least
INITIAL_VIRTUAL_SWARMS and K_VALUE / INITIAL_VIRTUAL_SWARMS equals
INITIAL_TOKEN_SUPPLY exactly. -/
lemma div_le_supply (x : Nat) :
    K_VALUE / (x + INITIAL_VIRTUAL_SWARMS) ≤ INITIAL_TOKEN_SUPPLY := by
  have h1 : K_VALUE / (x + INITIAL_VIRTUAL_SWARMS) ≤ K_VALUE / INITIAL_VIRTUAL_SWARMS :=
    Nat.div_le_div_left (Nat.le_add_left _ _) (by decide)
  have h2 : K_VALUE / INITIAL_VIRTUAL_SWARMS = INITIAL_TOKEN_SUPPLY := by decide
  omega

/-- Closed form of calculate_tokens_out: it always succeeds, returning
INITIAL_TOKEN_SUPPLY - K_VALUE / (swarms_in + INITIAL_VIRTUAL_SWARMS). -/
lemma tokens_out_eq (x : Nat) :
    calculate_tokens_out x =
      Except.ok (INITIAL_TOKEN_SUPPLY - K_VALUE / (x + INITIAL_VIRTUAL_SWARMS)) := by
  have hq := div_le_supply x
  have hS : INITIAL_TOKEN_SUPPLY = 1073000191000000 := rfl
  have hU : U64_SIZE = 18446744073709551616 := rfl
  show (if wsub128 INITIAL_TOKEN_SUPPLY (K_VALUE / (x + INITIAL_VIRTUAL_SWARMS)) < U64_SIZE
        then Except.ok (wsub128 INITIAL_TOKEN_SUPPLY (K_VALUE / (x + INITIAL_VIRTUAL_SWARMS)))
        else Except.error ErrorCode.BondingCurveError) =
      Except.ok (INITIAL_TOKEN_SUPPLY - K_VALUE / (x + INITIAL_VIRTUAL_SWARMS))
  rw [wsub128_of_le hq (by decide)]
  generalize K_VALUE / (x + INITIAL_VIRTUAL_SWARMS) = q at hq ⊢
  rw [if_pos (by omega)]

/-! Claim theorems. -/

/-- C5: calculate_tokens_out(baseIn) equals
INITIAL_TOKEN_SUPPLY - K_VALUE / (baseIn + INITIAL_VIRTUAL_SWARMS) under floor
division, and calculate_tokens_out 0 = Except.ok 0 exactly, since K_VALUE is
the product INITIAL_TOKEN_SUPPLY * INITIAL_VIRTUAL_SWARMS. -/
theorem tokens_out_formula (x : Nat) (hx : x < U64_SIZE) :
    calculate_tokens_out x =
      Except.ok (INITIAL_TOKEN_SUPPLY - K_VALUE / (x + INITIAL_VIRTUAL_SWARMS)) ∧
    calculate_tokens_out 0 = Except.ok 0 := by
  exact ⟨tokens_out_eq x, by decide⟩

/-- Witness for tokens_out_formula at the concrete input 7. -/
theorem tokens_out_formula_witness :
    calculate_tokens_out 7 =
      Except.ok (INITIAL_TOKEN_SUPPLY - K_VALUE / (7 + INITIAL_VIRTUAL_SWARMS)) ∧
    calculate_tokens_out 0 = Except.ok 0 :=
  tokens_out_formula 7 (by decide)

/-- C9: for every u64 input, calculate_tokens_out returns Ok (its
BondingCurveError branch is unreachable): the quotient never exceeds
INITIAL_TOKEN_SUPPLY, the subtraction never underflows, and the result is at
most INITIAL_TOKEN_SUPPLY, so it fits in u64. -/
theorem tokens_out_total (x : Nat) (hx : x < U64_SIZE) :
    calculate_tokens_out x =
      Except.ok (INITIAL_TOKEN_SUPPLY - K_VALUE / (x + INITIAL_VIRTUAL_SWARMS)) ∧
    K_VALUE / (x + INITIAL_VIRTUAL_SWARMS) ≤ INITIAL_TOKEN_SUPPLY ∧
    INITIAL_TOKEN_SUPPLY - K_VALUE / (x + INITIAL_VIRTUAL_SWARMS) ≤ INITIAL_TOKEN_SUPPLY ∧
    INITIAL_TOKEN_SUPPLY < U64_SIZE :=
  ⟨tokens_out_eq x, div_le_supply x, Nat.sub_le _ _, by decide⟩

/-- Witness for tokens_out_total at the concrete input 123456789. -/
theorem tokens_out_total_witness :
    calculate_tokens_out 123456789 =
      Except.ok (INITIAL_TOKEN_SUPPLY - K_VALUE / (123456789 + INITIAL_VIRTUAL_SWARMS)) ∧
    K_VALUE / (123456789 + INITIAL_VIRTUAL_SWARMS) ≤ INITIAL_TOKEN_SUPPLY ∧
    INITIAL_TOKEN_SUPPLY - K_VALUE / (123456789 + INITIAL_VIRTUAL_SWARMS) ≤ INITIAL_TOKEN_SUPPLY ∧
    INITIAL_TOKEN_SUPPLY < U64_SIZE :=
  tokens_out_total 123456789 (by decide)

/-- C4: for every u64 baseIn on which calculate_tokens_out succeeds, the
constant-product invariant holds within integer-division rounding:
(baseIn + initialVirtualBase) * (initialSupply - tokensOut) ≤ invariantK
< (baseIn + initialVirtualBase) * (initialSupply - tokensOut + 1). -/
theorem tokens_out_invariant_bounds (b t : Nat) (hb : b < U64_SIZE)
    (h : calculate_tokens_out b = Except.ok t) :
    (b + INITIAL_VIRTUAL_SWARMS) * (INITIAL_TOKEN_SUPPLY - t) ≤ K_VALUE ∧
    K_VALUE < (b + INITIAL_VIRTUAL_SWARMS) * (INITIAL_TOKEN_SUPPLY - t + 1) := by
  have heq := tokens_out_eq b
  rw [h] at heq
  have ht : t = INITIAL_TOKEN_SUPPLY - K_VALUE / (b + INITIAL_VIRTUAL_SWARMS) :=
    Except.ok.inj heq
  have hq := div_le_supply b
  have hd : 0 < b + INITIAL_VIRTUAL_SWARMS := by
    have hV : INITIAL_VIRTUAL_SWARMS = 500000000 := rfl
    omega
  have hmod := Nat.div_add_mod K_VALUE (b + INITIAL_VIRTUAL_SWARMS)
  have hlt := Nat.mod_lt K_VALUE hd
  generalize hg : K_VALUE / (b + INITIAL_VIRTUAL_SWARMS) = q at ht hq hmod
  have hst : INITIAL_TOKEN_SUPPLY - t = q := by omega
  rw [hst]
  constructor
  · exact Nat.le.intro hmod
  · calc K_VALUE
        = (b + INITIAL_VIRTUAL_SWARMS) * q
            + K_VALUE % (b + INITIAL_VIRTUAL_SWARMS) := hmod.symm
      _ < (b + INITIAL_VIRTUAL_SWARMS) * q
            + (b + INITIAL_VIRTUAL_SWARMS) := Nat.add_lt_add_left hlt _
      _ = (b + INITIAL_VIRTUAL_SWARMS) * (q + 1) :=
            (Nat.mul_succ _ _).symm

/-- Witness for tokens_out_invariant_bounds at baseIn = 0 (tokensOut = 0). -/
theorem tokens_out_invariant_bounds_witness :
    (0 + INITIAL_VIRTUAL_SWARMS) * (INITIAL_TOKEN_SUPPLY - 0) ≤ K_VALUE ∧
    K_VALUE < (0 + INITIAL_VIRTUAL_SWARMS) * (INITIAL_TOKEN_SUPPLY - 0 + 1) :=
  tokens_out_invariant_bounds 0 0 (by decide) (by decide)

/-- C6 counterexample: calculate_tokens_out is NOT strictly increasing: the
distinct u64 inputs 999499999999 < 999500000000 produce the same output
1072463690904500, because both denominators share the integer quotient
K_VALUE / d = 536500095500. -/
theorem tokens_out_not_strictly_increasing :
    (999499999999 : Nat) < 999500000000 ∧
    calculate_tokens_out 999499999999 = Except.ok 1072463690904500 ∧
    calculate_tokens_out 999500000000 = Except.ok 1072463690904500 := by
  refine ⟨by decide, ?_, ?_⟩ <;> decide

/-- C6 amended: calculate_tokens_out is monotone non-decreasing: for u64
inputs x1 ≤ x2 on which it succeeds, the outputs satisfy v1 ≤ v2. -/
theorem tokens_out_monotone (x1 x2 v1 v2 : Nat) (hle : x1 ≤ x2)
    (h1 : calculate_tokens_out x1 = Except.ok v1)
    (h2 : calculate_tokens_out x2 = Except.ok v2) : v1 ≤ v2 := by
  have e1 := tokens_out_eq x1
  have e2 := tokens_out_eq x2
  rw [h1] at e1
  rw [h2] at e2
  have hv1 := Except.ok.inj e1
  have hv2 := Except.ok.inj e2
  subst hv1
  subst hv2
  have hdiv : K_VALUE / (x2 + INITIAL_VIRTUAL_SWARMS) ≤
      K_VALUE / (x1 + INITIAL_VIRTUAL_SWARMS) :=
    Nat.div_le_div_left (Nat.add_le_add_right hle _)
      (by have hV : INITIAL_VIRTUAL_SWARMS = 500000000 := rfl; omega)
  exact Nat.sub_le_sub_left hdiv _

/-- Witness for tokens_out_monotone at the inputs 0 ≤ 1000 with outputs
0 and 2145996091. -/
theorem tokens_out_monotone_witness :
    calculate_tokens_out 0 = Except.ok 0 ∧
    calculate_tokens_out 1000 = Except.ok 2145996091 ∧
    (0 : Nat) ≤ 2145996091 :=
  ⟨by decide, by decide,
    tokens_out_monotone 0 1000 0 2145996091 (by decide) (by decide) (by decide)⟩

/-- C1 counterexample: the input 1073000190999999 is strictly below
INITIAL_TOKEN_SUPPLY, yet calculate_swarms_out fails with BondingCurveError,
because K_VALUE / 1 - INITIAL_VIRTUAL_SWARMS does not fit in u64.  This
refutes the claim that every tokensIn below initialSupply yields Ok. -/
theorem swarms_out_errors_below_supply :
    (1073000190999999 : Nat) < INITIAL_TOKEN_SUPPLY ∧
    calculate_swarms_out 1073000190999999 = Except.error ErrorCode.BondingCurveError :=
  ⟨by decide, by decide⟩

/-- C1 amended: for every tokensIn up to 1073000190970916
(= INITIAL_TOKEN_SUPPLY - 29084) calculate_swarms_out returns Ok with a value
that fits in u64; calculate_swarms_out 0 = Ok 0; and
calculate_swarms_out INITIAL_TOKEN_SUPPLY is the BondingCurveError (zero
remaining supply). -/
theorem swarms_out_ok_below_cutoff (t : Nat) (ht : t ≤ 1073000190970916) :
    calculate_swarms_out t =
      Except.ok (K_VALUE / (INITIAL_TOKEN_SUPPLY - t) - INITIAL_VIRTUAL_SWARMS) ∧
    K_VALUE / (INITIAL_TOKEN_SUPPLY - t) - INITIAL_VIRTUAL_SWARMS < U64_SIZE ∧
    calculate_swarms_out 0 = Except.ok 0 ∧
    calculate_swarms_out INITIAL_TOKEN_SUPPLY = Except.error ErrorCode.BondingCurveError := by
  have hS : INITIAL_TOKEN_SUPPLY = 1073000191000000 := rfl
  have htS : t ≤ INITIAL_TOKEN_SUPPLY := by omega
  have hr : 29084 ≤ INITIAL_TOKEN_SUPPLY - t := by omega
  have hdiv : K_VALUE / (INITIAL_TOKEN_SUPPLY - t) ≤ K_VALUE / 29084 :=
    Nat.div_le_div_left hr (by decide)
  have hfit : K_VALUE / (INITIAL_TOKEN_SUPPLY - t) - INITIAL_VIRTUAL_SWARMS < U64_SIZE :=
    lt_of_le_of_lt (Nat.sub_le_sub_right hdiv _) (by decide)
  refine ⟨?_, hfit, by decide, by decide⟩
  show (if wsub128 INITIAL_TOKEN_SUPPLY t = 0 then Except.error ErrorCode.BondingCurveError
        else if K_VALUE / wsub128 INITIAL_TOKEN_SUPPLY t - INITIAL_VIRTUAL_SWARMS < U64_SIZE
             then Except.ok (K_VALUE / wsub128 INITIAL_TOKEN_SUPPLY t - INITIAL_VIRTUAL_SWARMS)
             else Except.error ErrorCode.BondingCurveError) =
      Except.ok (K_VALUE / (INITIAL_TOKEN_SUPPLY - t) - INITIAL_VIRTUAL_SWARMS)
  rw [wsub128_of_le htS (by decide)]
  rw [if_neg (by omega), if_pos hfit]

/-- Witness for swarms_out_ok_below_cutoff at the concrete input 12345. -/
theorem swarms_out_ok_below_cutoff_witness :
    calculate_swarms_out 12345 =
      Except.ok (K_VALUE / (INITIAL_TOKEN_SUPPLY - 12345) - INITIAL_VIRTUAL_SWARMS) ∧
    K_VALUE / (INITIAL_TOKEN_SUPPLY - 12345) - INITIAL_VIRTUAL_SWARMS < U64_SIZE ∧
    calculate_swarms_out 0 = Except.ok 0 ∧
    calculate_swarms_out INITIAL_TOKEN_SUPPLY = Except.error ErrorCode.BondingCurveError :=
  swarms_out_ok_below_cutoff 12345 (by decide)

/-- C2: evaluating the code at baseIn = 2999500000000 (a concrete u64 amount):
swapping it for tokens yields 1072821357634834 tokens, and swapping those
tokens straight back yields 2999500000011 base asset — strictly MORE than was
put in.  Floor division in calculate_tokens_out rounds the token output up,
so integer rounding favors the trader, contradicting the claimed round-trip
bound; the trader extracts 11 units in this round trip. -/
theorem round_trip_extracts_value :
    calculate_tokens_out 2999500000000 = Except.ok 1072821357634834 ∧
    calculate_swarms_out 1072821357634834 = Except.ok 2999500000011 ∧
    (2999500000000 : Nat) < 2999500000011 :=
  ⟨by decide, by decide, by decide⟩

/-- C3: whenever the mint preconditions pass and the curve-computed output is
strictly below min_amount_out, swap fails with SlippageExceeded and performs
no token transfer (an error result carries no transfer list). -/
theorem swap_slippage_aborts (acc : SwapAccounts) (amount_in min_amount_out out : Nat)
    (h1 : acc.swarmsMintStr = SWARMS_TOKEN_ADDRESS)
    (h2 : acc.tokenInMint = acc.swarmsMint ∨ acc.tokenInMint = acc.mintedMint)
    (h3 : (if acc.tokenInMint = acc.swarmsMint then calculate_tokens_out amount_in
           else calculate_swarms_out amount_in) = Except.ok out)
    (h4 : out < min_amount_out) :
    swap acc amount_in min_amount_out = Except.error ErrorCode.SlippageExceeded ∧
    ∀ l : List Transfer, swap acc amount_in min_amount_out ≠ Except.ok l := by
  have hs : swap acc amount_in min_amount_out = Except.error ErrorCode.SlippageExceeded := by
    unfold swap
    rw [if_neg (not_not_intro h1), if_neg (not_not_intro h2), h3]
    show (if out < min_amount_out then Except.error ErrorCode.SlippageExceeded
          else Except.ok [Transfer.mk acc.userTokenIn acc.vaultTokenIn amount_in,
                          Transfer.mk acc.vaultTokenOut acc.userTokenOut out]) =
        Except.error ErrorCode.SlippageExceeded
    exact if_pos h4
  refine ⟨hs, fun l hl => ?_⟩
  rw [hs] at hl
  exact Except.noConfusion hl

/-- Witness for swap_slippage_aborts: a swarms-for-tokens swap of 0 with
min_amount_out = 1 aborts with SlippageExceeded. -/
theorem swap_slippage_aborts_witness :
    swap ⟨⟨0, 0, 0⟩, SWARMS_TOKEN_ADDRESS, 1, 2, 1, 10, 11, 20, 21⟩ 0 1 =
      Except.error ErrorCode.SlippageExceeded :=
  (swap_slippage_aborts ⟨⟨0, 0, 0⟩, SWARMS_TOKEN_ADDRESS, 1, 2, 1, 10, 11, 20, 21⟩ 0 1 0
    rfl (Or.inl rfl) (by decide) (by decide)).1

/-- C7: withdraw_liquidity by the fixed withdrawal authority with both amounts
zero succeeds with zero transfers; and any caller whose identity differs from
the hardcoded WITHDRAW_AUTHORITY constant fails with InvalidWithdrawAuthority
(no transfers), regardless of the requested amounts. -/
theorem withdraw_zero_and_authority :
    (∀ (vault : TokenVault) (vs asw vm am : Nat),
      withdraw_liquidity WITHDRAW_AUTHORITY vault vs asw vm am 0 0 = Except.ok []) ∧
    (∀ (s : String) (vault : TokenVault) (vs asw vm am sa ma : Nat),
      s ≠ WITHDRAW_AUTHORITY →
      withdraw_liquidity s vault vs asw vm am sa ma =
        Except.error ErrorCode.InvalidWithdrawAuthority) := by
  constructor
  · intro vault vs asw vm am
    unfold withdraw_liquidity
    rw [if_neg (not_not_intro rfl)]
    rfl
  · intro s vault vs asw vm am sa ma hs
    unfold withdraw_liquidity
    rw [if_pos hs]

/-- Witness for withdraw_zero_and_authority at concrete accounts: the fixed
authority withdrawing (0, 0) succeeds with no transfers, and the caller
"intruder" is rejected. -/
theorem withdraw_zero_and_authority_witness :
    withdraw_liquidity WITHDRAW_AUTHORITY ⟨1, 2, 3⟩ 4 5 6 7 0 0 = Except.ok [] ∧
    withdraw_liquidity "intruder" ⟨1, 2, 3⟩ 4 5 6 7 8 9 =
      Except.error ErrorCode.InvalidWithdrawAuthority :=
  ⟨withdraw_zero_and_authority.1 ⟨1, 2, 3⟩ 4 5 6 7,
   withdraw_zero_and_authority.2 "intruder" ⟨1, 2, 3⟩ 4 5 6 7 8 9 (by decide)⟩

/-- C8: the outcome of withdraw_liquidity does not depend on the vault
record's stored authority field: two runs that differ only in that field,
with the same caller and amounts, produce identical results — authorization
is decided solely against the hardcoded WITHDRAW_AUTHORITY constant. -/
theorem withdraw_ignores_stored_authority
    (s : String) (mm sm a1 a2 vs asw vm am sa ma : Nat) :
    withdraw_liquidity s ⟨mm, sm, a1⟩ vs asw vm am sa ma =
    withdraw_liquidity s ⟨mm, sm, a2⟩ vs asw vm am sa ma := rfl


/-- C10: calculate_swarms_out is well-defined only for
tokens_in ≤ INITIAL_TOKEN_SUPPLY, where the u128 subtraction computes the true
remaining supply.  For every u64 tokens_in strictly above INITIAL_TOKEN_SUPPLY
the unchecked 128-bit subtraction underflows (wraps modulo 2^128): the
computed "remaining supply" exceeds the total supply itself, the zero guard
does not fire, and no BondingCurveError is raised — the function silently
returns Ok 0.  Moreover swap performs no check that amount_in is within the
bound on the minted-token-input path: it accepts such an amount and issues
both transfers. -/
theorem swarms_out_underflow_domain :
    (∀ t, t ≤ INITIAL_TOKEN_SUPPLY →
      wsub128 INITIAL_TOKEN_SUPPLY t = INITIAL_TOKEN_SUPPLY - t) ∧
    (∀ t, INITIAL_TOKEN_SUPPLY < t → t < U64_SIZE →
      INITIAL_TOKEN_SUPPLY < wsub128 INITIAL_TOKEN_SUPPLY t ∧
      calculate_swarms_out t = Except.ok 0 ∧
      ∀ acc : SwapAccounts, acc.swarmsMintStr = SWARMS_TOKEN_ADDRESS →
        acc.tokenInMint ≠ acc.swarmsMint → acc.tokenInMint = acc.mintedMint →
        swap acc t 0 = Except.ok [⟨acc.userTokenIn, acc.vaultTokenIn, t⟩,
                                  ⟨acc.vaultTokenOut, acc.userTokenOut, 0⟩]) := by
  constructor
  · intro t htS
    exact wsub128_of_le htS (by decide)
  · intro t h1 h2
    have hS : INITIAL_TOKEN_SUPPLY = 1073000191000000 := rfl
    have hU : U64_SIZE = 18446744073709551616 := rfl
    have hM : U128_MOD = 340282366920938463463374607431768211456 := rfl
    have hK : K_VALUE = 536500095500000000000000 := rfl
    rw [hS] at h1
    rw [hU] at h2
    have hw : wsub128 INITIAL_TOKEN_SUPPLY t = U128_MOD + INITIAL_TOKEN_SUPPLY - t := by
      show (U128_MOD + INITIAL_TOKEN_SUPPLY - t) % U128_MOD =
        U128_MOD + INITIAL_TOKEN_SUPPLY - t
      rw [hM, hS]
      omega
    have hlt : INITIAL_TOKEN_SUPPLY < wsub128 INITIAL_TOKEN_SUPPLY t := by
      rw [hw, hM, hS]
      omega
    have hne : wsub128 INITIAL_TOKEN_SUPPLY t ≠ 0 := by
      intro h0
      rw [h0] at hlt
      exact Nat.not_lt_zero _ hlt
    have hKr : K_VALUE / wsub128 INITIAL_TOKEN_SUPPLY t = 0 := by
      apply Nat.div_eq_of_lt
      rw [hw, hK, hM, hS]
      omega
    have hcso : calculate_swarms_out t = Except.ok 0 := by
      show (if wsub128 INITIAL_TOKEN_SUPPLY t = 0 then Except.error ErrorCode.BondingCurveError
            else if K_VALUE / wsub128 INITIAL_TOKEN_SUPPLY t - INITIAL_VIRTUAL_SWARMS < U64_SIZE
                 then Except.ok (K_VALUE / wsub128 INITIAL_TOKEN_SUPPLY t - INITIAL_VIRTUAL_SWARMS)
                 else Except.error ErrorCode.BondingCurveError) = Except.ok 0
      rw [if_neg hne, hKr, Nat.zero_sub, if_pos (by decide)]
    refine ⟨hlt, hcso, ?_⟩
    intro acc ha1 ha2 ha3
    unfold swap
    rw [if_neg (not_not_intro ha1), if_neg (not_not_intro (Or.inr ha3)), if_neg ha2, hcso]
    show (if 0 < 0 then Except.error ErrorCode.SlippageExceeded
          else Except.ok [Transfer.mk acc.userTokenIn acc.vaultTokenIn t,
                          Transfer.mk acc.vaultTokenOut acc.userTokenOut 0]) =
      Except.ok [Transfer.mk acc.userTokenIn acc.vaultTokenIn t,
                 Transfer.mk acc.vaultTokenOut acc.userTokenOut 0]
    rw [if_neg (by decide)]

/-- Witness for swarms_out_underflow_domain at tokens_in =
INITIAL_TOKEN_SUPPLY + 1 = 1073000191000001 and a concrete minted-token-path
swap. -/
theorem swarms_out_underflow_domain_witness :
    calculate_swarms_out 1073000191000001 = Except.ok 0 ∧
    swap ⟨⟨0, 0, 0⟩, SWARMS_TOKEN_ADDRESS, 1, 2, 2, 10, 11, 20, 21⟩ 1073000191000001 0 =
      Except.ok [⟨10, 20, 1073000191000001⟩, ⟨21, 11, 0⟩] :=
  ⟨(swarms_out_underflow_domain.2 1073000191000001 (by decide) (by decide)).2.1,
   (swarms_out_underflow_domain.2 1073000191000001 (by decide) (by decide)).2.2
     ⟨⟨0, 0, 0⟩, SWARMS_TOKEN_ADDRESS, 1, 2, 2, 10, 11, 20, 21⟩ rfl (by decide) rfl⟩

end BondingCurve
